import Mathlib

/-!
Shallow embedding of the `tesseract-rs` wrapper layer (the Rust sources under
`src/`), together with theorems settling the frozen claims about the
handle-ownership / concurrency-safety layer.

Modelling conventions:
* A native pointer is `Ptr := Option Nat`; `none` is the C null pointer.
* The native engine is an oracle: every value a native entry point returns
  (status codes, buffers, pointers) becomes an explicit argument of the
  embedded function, so each wrapper method is a pure function of the
  poisoned-flag of its mutex and of the native responses it observes.
* A C string handed back by the engine is modelled as `Option String`:
  `none` is a byte string that is not valid UTF-8 (so `CStr::to_str` fails),
  `some s` is a string decoding to `s`.  A nullable C string pointer is
  therefore `Option (Option String)` with the outer `none` the null pointer.
* The outcome of a call distinguishes ordinary returns (`ok`/`err`), a Rust
  panic (`panicked`, produced by `.lock().unwrap()` on a poisoned mutex), and
  undefined behaviour (`ub`, reading through an unchecked, possibly null
  pointer or running past the end of a sentinel-terminated buffer).
* Operations whose claim is about resource management additionally return the
  list of native cleanup / allocation calls they issued, in order.
* Native `float` / `double` values are carried opaquely as `Int`; the wrapper
  layer never computes with them, it only passes them through.
-/

namespace TessRs

/-- Error enumeration from `src/error.rs` (`TesseractError`).  The
`Utf8Error` payload (the wrapped `std::str::Utf8Error`) is dropped: the
wrapper layer never inspects it. -/
inductive TesseractError where
  | InitError
  | SetImageError
  | OcrError
  | Utf8Error
  | MutexLockError
  | SetVariableError
  | GetVariableError
  | NullPointerError
  | InvalidParameterError
  | AnalyseLayoutError
  | ProcessPagesError
  | IoError
  | MutexError
  | InvalidDimensions
  | InvalidBytesPerPixel
  | InvalidBytesPerLine
  | InvalidImageData
  | UninitializedError
  deriving DecidableEq, Repr

/-- Result of running one wrapper operation: a normal return, an error
return, a Rust panic, or undefined behaviour in the native layer. -/
inductive Outcome (α : Type) where
  | ok (a : α)
  | err (e : TesseractError)
  | panicked
  | ub
  deriving DecidableEq, Repr

/-- A native pointer; `none` is null. -/
abbrev Ptr := Option Nat

/-- Native entry points relevant to resource management, recorded in the
order the wrapper issues them. -/
inductive NativeCall where
  | deleteText
  | deleteIntArray
  | deleteTextArray
  | pageIteratorDelete (p : Ptr)
  | resultIteratorDelete (p : Ptr)
  | choiceIteratorDelete (p : Ptr)
  | baseAPIDelete (p : Ptr)
  | monitorDelete (p : Ptr)
  | deleteResultRenderer (p : Ptr)
  | recognizeCall
  | analyseLayoutCall
  | getIteratorCall
  deriving DecidableEq, Repr

/-- The while loop of `get_word_confidences` / `all_word_confidences`
(src/api.rs lines 85-89 and 522-527): walk the native `int` buffer,
collecting entries until the first `-1` sentinel.  `none` models the loop
running past the end of the buffer (undefined behaviour in the native
layer), which happens exactly when no sentinel is present. -/
def intSentinelLoop : List Int → Option (List Int)
  | [] => none
  | x :: xs => if x = -1 then some [] else (intSentinelLoop xs).map (x :: ·)

/-- Wrapper struct `TesseractAPI` (src/api.rs 13-16): the value stored in
`Arc<Mutex<*mut c_void>>`. -/
structure TesseractAPI where
  handle : Ptr
  deriving DecidableEq, Repr

/-- Wrapper struct `PageIterator` (src/page_iterator.rs 10-12). -/
structure PageIterator where
  handle : Ptr
  deriving DecidableEq, Repr

/-- Wrapper struct `ResultIterator` (src/result_iterator.rs 8-10). -/
structure ResultIterator where
  handle : Ptr
  deriving DecidableEq, Repr

/-- Wrapper struct `MutableIterator` (src/mutable_iterator.rs 15-17). -/
structure MutableIterator where
  handle : Ptr
  deriving DecidableEq, Repr

/-- Wrapper struct `ChoiceIterator` (src/choice_iterator.rs 7-9). -/
structure ChoiceIterator where
  handle : Ptr
  deriving DecidableEq, Repr

/-- Wrapper struct `TessMonitor` (src/monitor.rs 4-6). -/
structure TessMonitor where
  handle : Ptr
  deriving DecidableEq, Repr

/-- Wrapper struct `TessResultRenderer` (src/result_renderer.rs 8-10). -/
structure TessResultRenderer where
  handle : Ptr
  deriving DecidableEq, Repr

namespace TesseractAPI

/-- src/api.rs 28-33: `TesseractAPI::new` wraps whatever pointer
`TessBaseAPICreate` returned, with no null check and no fallible return
type. -/
def new (created : Ptr) : TesseractAPI := { handle := created }

/-- src/api.rs 57-70: `init`; native failure status (nonzero) becomes
`InitError`. -/
def init (poisoned : Bool) (initStatus : Int) : Outcome Unit :=
  if poisoned then .err .MutexLockError
  else if initStatus ≠ 0 then .err .InitError else .ok ()

/-- src/api.rs 77-91: `get_word_confidences`.  The pointer returned by
`TessBaseAPIAllWordConfidences` is dereferenced without a null check and
`TessDeleteIntArray` is never called. -/
def get_word_confidences (poisoned : Bool) (buf : Option (List Int)) :
    Outcome (List Int) × List NativeCall :=
  if poisoned then (.err .MutexLockError, [])
  else
    match buf with
    | none => (.ub, [])
    | some l =>
      match intSentinelLoop l with
      | none => (.ub, [])
      | some v => (.ok v, [])

/-- src/api.rs 98-104: `mean_text_conf`. -/
def mean_text_conf (poisoned : Bool) (conf : Int) : Outcome Int :=
  if poisoned then .err .MutexLockError else .ok conf

/-- src/api.rs 116-129: `set_variable`; native status other than 1 becomes
`SetVariableError`. -/
def set_variable (poisoned : Bool) (status : Int) : Outcome Unit :=
  if poisoned then .err .MutexLockError
  else if status ≠ 1 then .err .SetVariableError else .ok ()

/-- src/api.rs 140-152: `get_string_variable`; null result pointer becomes
`GetVariableError`, a non-UTF-8 value the encoding error. -/
def get_string_variable (poisoned : Bool) (valuePtr : Option (Option String)) :
    Outcome String :=
  if poisoned then .err .MutexLockError
  else
    match valuePtr with
    | none => .err .GetVariableError
    | some none => .err .Utf8Error
    | some (some s) => .ok s

/-- src/api.rs 163-170: `get_int_variable`. -/
def get_int_variable (poisoned : Bool) (v : Int) : Outcome Int :=
  if poisoned then .err .MutexLockError else .ok v

/-- src/api.rs 181-188: `get_bool_variable`. -/
def get_bool_variable (poisoned : Bool) (v : Int) : Outcome Bool :=
  if poisoned then .err .MutexLockError else .ok (v ≠ 0)

/-- src/api.rs 199-206: `get_double_variable` (double carried opaquely). -/
def get_double_variable (poisoned : Bool) (v : Int) : Outcome Int :=
  if poisoned then .err .MutexLockError else .ok v

/-- src/api.rs 217-224: `set_page_seg_mode`. -/
def set_page_seg_mode (poisoned : Bool) : Outcome Unit :=
  if poisoned then .err .MutexLockError else .ok ()

/-- src/api.rs 231-238: `get_page_seg_mode` (the transmuted mode carried as
the raw native int). -/
def get_page_seg_mode (poisoned : Bool) (mode : Int) : Outcome Int :=
  if poisoned then .err .MutexLockError else .ok mode

/-- src/api.rs 245-256: `recognize`; nonzero native status becomes
`OcrError`. -/
def recognize (poisoned : Bool) (status : Int) : Outcome Unit :=
  if poisoned then .err .MutexLockError
  else if status ≠ 0 then .err .OcrError else .ok ()

/-- src/api.rs 267-280: `get_hocr_text`; null pointer becomes `OcrError`;
on a decode failure the `?` operator returns before `TessDeleteText`. -/
def get_hocr_text (poisoned : Bool) (_page : Int) (textPtr : Option (Option String)) :
    Outcome String × List NativeCall :=
  if poisoned then (.err .MutexLockError, [])
  else
    match textPtr with
    | none => (.err .OcrError, [])
    | some none => (.err .Utf8Error, [])
    | some (some s) => (.ok s, [.deleteText])

/-- src/api.rs 291-304: `get_alto_text` (same shape as `get_hocr_text`). -/
def get_alto_text (poisoned : Bool) (_page : Int) (textPtr : Option (Option String)) :
    Outcome String × List NativeCall :=
  if poisoned then (.err .MutexLockError, [])
  else
    match textPtr with
    | none => (.err .OcrError, [])
    | some none => (.err .Utf8Error, [])
    | some (some s) => (.ok s, [.deleteText])

/-- src/api.rs 315-328: `get_tsv_text`. -/
def get_tsv_text (poisoned : Bool) (_page : Int) (textPtr : Option (Option String)) :
    Outcome String × List NativeCall :=
  if poisoned then (.err .MutexLockError, [])
  else
    match textPtr with
    | none => (.err .OcrError, [])
    | some none => (.err .Utf8Error, [])
    | some (some s) => (.ok s, [.deleteText])

/-- src/api.rs 339-347: `set_input_name`. -/
def set_input_name (poisoned : Bool) : Outcome Unit :=
  if poisoned then .err .MutexLockError else .ok ()

/-- src/api.rs 354-365: `get_input_name`; the returned pointer is engine
owned, so no deallocation call. -/
def get_input_name (poisoned : Bool) (namePtr : Option (Option String)) :
    Outcome String :=
  if poisoned then .err .MutexLockError
  else
    match namePtr with
    | none => .err .NullPointerError
    | some none => .err .Utf8Error
    | some (some s) => .ok s

/-- src/api.rs 372-383: `get_datapath`. -/
def get_datapath (poisoned : Bool) (pathPtr : Option (Option String)) :
    Outcome String :=
  if poisoned then .err .MutexLockError
  else
    match pathPtr with
    | none => .err .NullPointerError
    | some none => .err .Utf8Error
    | some (some s) => .ok s

/-- src/api.rs 390-396: `get_source_y_resolution`. -/
def get_source_y_resolution (poisoned : Bool) (v : Int) : Outcome Int :=
  if poisoned then .err .MutexLockError else .ok v

/-- src/api.rs 403-414: `get_thresholded_image`; null pix becomes
`NullPointerError`. -/
def get_thresholded_image (poisoned : Bool) (pix : Ptr) : Outcome Nat :=
  if poisoned then .err .MutexLockError
  else
    match pix with
    | none => .err .NullPointerError
    | some p => .ok p

/-- src/api.rs 425-438: `get_box_text`. -/
def get_box_text (poisoned : Bool) (_page : Int) (textPtr : Option (Option String)) :
    Outcome String × List NativeCall :=
  if poisoned then (.err .MutexLockError, [])
  else
    match textPtr with
    | none => (.err .OcrError, [])
    | some none => (.err .Utf8Error, [])
    | some (some s) => (.ok s, [.deleteText])

/-- src/api.rs 449-462: `get_lstm_box_text`. -/
def get_lstm_box_text (poisoned : Bool) (_page : Int) (textPtr : Option (Option String)) :
    Outcome String × List NativeCall :=
  if poisoned then (.err .MutexLockError, [])
  else
    match textPtr with
    | none => (.err .OcrError, [])
    | some none => (.err .Utf8Error, [])
    | some (some s) => (.ok s, [.deleteText])

/-- src/api.rs 473-486: `get_word_str_box_text`. -/
def get_word_str_box_text (poisoned : Bool) (_page : Int) (textPtr : Option (Option String)) :
    Outcome String × List NativeCall :=
  if poisoned then (.err .MutexLockError, [])
  else
    match textPtr with
    | none => (.err .OcrError, [])
    | some none => (.err .Utf8Error, [])
    | some (some s) => (.ok s, [.deleteText])

/-- src/api.rs 493-506: `get_unlv_text`. -/
def get_unlv_text (poisoned : Bool) (textPtr : Option (Option String)) :
    Outcome String × List NativeCall :=
  if poisoned then (.err .MutexLockError, [])
  else
    match textPtr with
    | none => (.err .OcrError, [])
    | some none => (.err .Utf8Error, [])
    | some (some s) => (.ok s, [.deleteText])

/-- src/api.rs 513-530: `all_word_confidences`: null checked (to
`OcrError`), buffer copied up to the `-1` sentinel, then exactly one
`TessDeleteIntArray`. -/
def all_word_confidences (poisoned : Bool) (buf : Option (List Int)) :
    Outcome (List Int) × List NativeCall :=
  if poisoned then (.err .MutexLockError, [])
  else
    match buf with
    | none => (.err .OcrError, [])
    | some l =>
      match intSentinelLoop l with
      | none => (.ub, [])
      | some v => (.ok v, [.deleteIntArray])

/-- src/api.rs 542-550: `adapt_to_word_str`. -/
def adapt_to_word_str (poisoned : Bool) (status : Int) : Outcome Bool :=
  if poisoned then .err .MutexLockError else .ok (status ≠ 0)

/-- src/api.rs 557-587: `detect_os`; zero native status becomes `OcrError`;
a non-null script name is decoded (on failure `?` skips `TessDeleteText`)
and freed, a null one becomes the empty string. -/
def detect_os (poisoned : Bool) (status : Int) (orientDeg orientConf : Int)
    (scriptPtr : Option (Option String)) (scriptConf : Int) :
    Outcome (Int × Int × String × Int) × List NativeCall :=
  if poisoned then (.err .MutexLockError, [])
  else if status = 0 then (.err .OcrError, [])
  else
    match scriptPtr with
    | none => (.ok (orientDeg, orientConf, "", scriptConf), [])
    | some none => (.err .Utf8Error, [])
    | some (some s) => (.ok (orientDeg, orientConf, s, scriptConf), [.deleteText])

/-- src/api.rs 598-605: `set_min_orientation_margin`. -/
def set_min_orientation_margin (poisoned : Bool) : Outcome Unit :=
  if poisoned then .err .MutexLockError else .ok ()

/-- src/api.rs 612-622: `get_page_iterator`; a null iterator pointer
becomes `NullPointerError`, otherwise the pointer is wrapped. -/
def get_page_iterator (poisoned : Bool) (iter : Ptr) : Outcome PageIterator :=
  if poisoned then .err .MutexLockError
  else
    match iter with
    | none => .err .NullPointerError
    | some p => .ok { handle := some p }

/-- src/api.rs 633-640: `set_input_image`. -/
def set_input_image (poisoned : Bool) : Outcome Unit :=
  if poisoned then .err .MutexLockError else .ok ()

/-- src/api.rs 647-658: `get_input_image`. -/
def get_input_image (poisoned : Bool) (pix : Ptr) : Outcome Nat :=
  if poisoned then .err .MutexLockError
  else
    match pix with
    | none => .err .NullPointerError
    | some p => .ok p

/-- src/api.rs 669-677: `set_output_name`. -/
def set_output_name (poisoned : Bool) : Outcome Unit :=
  if poisoned then .err .MutexLockError else .ok ()

/-- src/api.rs 689-702: `set_debug_variable`. -/
def set_debug_variable (poisoned : Bool) (status : Int) : Outcome Unit :=
  if poisoned then .err .MutexLockError
  else if status ≠ 1 then .err .SetVariableError else .ok ()

/-- src/api.rs 713-725: `print_variables_to_file`; nonzero native status
becomes `IoError`. -/
def print_variables_to_file (poisoned : Bool) (status : Int) : Outcome Unit :=
  if poisoned then .err .MutexLockError
  else if status ≠ 0 then .err .IoError else .ok ()

/-- src/api.rs 732-739: `init_for_analyse_page`. -/
def init_for_analyse_page (poisoned : Bool) : Outcome Unit :=
  if poisoned then .err .MutexLockError else .ok ()

/-- src/api.rs 749-757: `read_config_file`. -/
def read_config_file (poisoned : Bool) : Outcome Unit :=
  if poisoned then .err .MutexLockError else .ok ()

/-- src/api.rs 768-776: `read_debug_config_file`. -/
def read_debug_config_file (poisoned : Bool) : Outcome Unit :=
  if poisoned then .err .MutexLockError else .ok ()

/-- src/api.rs 783-789: `get_thresholded_image_scale_factor`. -/
def get_thresholded_image_scale_factor (poisoned : Bool) (v : Int) : Outcome Int :=
  if poisoned then .err .MutexLockError else .ok v

/-- src/api.rs 802-831: `process_pages`; null result becomes
`ProcessPagesError`; decode failure skips `TessDeleteText`. -/
def process_pages (poisoned : Bool) (textPtr : Option (Option String)) :
    Outcome String × List NativeCall :=
  if poisoned then (.err .MutexLockError, [])
  else
    match textPtr with
    | none => (.err .ProcessPagesError, [])
    | some none => (.err .Utf8Error, [])
    | some (some s) => (.ok s, [.deleteText])

/-- src/api.rs 838-850: `get_init_languages_as_string`. -/
def get_init_languages_as_string (poisoned : Bool) (resPtr : Option (Option String)) :
    Outcome String :=
  if poisoned then .err .MutexLockError
  else
    match resPtr with
    | none => .err .NullPointerError
    | some none => .err .Utf8Error
    | some (some s) => .ok s

/-- The loop of `string_vec_to_rust` (src/api.rs 893-903): walk the entries
of the native string array until the terminating null entry, decoding each.
The outer `none` models the walk running past the end of the buffer (no
terminating null present, undefined behaviour in the native layer);
`some none` models the early `?` return on a non-UTF-8 entry (the only
failure `CStr::to_str` can produce); `some (some ss)` is the decoded
sequence up to the first null entry. -/
def stringVecLoop : List (Option (Option String)) → Option (Option (List String))
  | [] => none
  | none :: _ => some (some [])
  | some none :: _ => some none
  | some (some s) :: rest =>
    match stringVecLoop rest with
    | none => none
    | some none => some none
    | some (some ss) => some (some (s :: ss))

/-- src/api.rs 889-906: `string_vec_to_rust`: null array pointer becomes
`NullPointerError`; entries are walked to the first null entry and decoded
(an early `?` return on a decode failure becomes `Utf8Error` and skips
`TessDeleteTextArray`); on success exactly one `TessDeleteTextArray` is
issued after all entries have been copied. -/
def string_vec_to_rust (vecPtr : Option (List (Option (Option String)))) :
    Outcome (List String) × List NativeCall :=
  match vecPtr with
  | none => (.err .NullPointerError, [])
  | some entries =>
    match stringVecLoop entries with
    | none => (.ub, [])
    | some none => (.err .Utf8Error, [])
    | some (some ss) => (.ok ss, [.deleteTextArray])

/-- src/api.rs 857-864: `get_loaded_languages` =
lock, native call, then `string_vec_to_rust`. -/
def get_loaded_languages (poisoned : Bool)
    (vecPtr : Option (List (Option (Option String)))) :
    Outcome (List String) × List NativeCall :=
  if poisoned then (.err .MutexLockError, [])
  else string_vec_to_rust vecPtr

/-- src/api.rs 871-878: `get_available_languages`. -/
def get_available_languages (poisoned : Bool)
    (vecPtr : Option (List (Option (Option String)))) :
    Outcome (List String) × List NativeCall :=
  if poisoned then (.err .MutexLockError, [])
  else string_vec_to_rust vecPtr

/-- src/api.rs 913-920: `clear_adaptive_classifier`. -/
def clear_adaptive_classifier (poisoned : Bool) : Outcome Unit :=
  if poisoned then .err .MutexLockError else .ok ()

/-- src/api.rs 927-934: `clear`. -/
def clear (poisoned : Bool) : Outcome Unit :=
  if poisoned then .err .MutexLockError else .ok ()

/-- src/api.rs 941-948: `end` (renamed: `end` is reserved in Lean). -/
def endEngine (poisoned : Bool) : Outcome Unit :=
  if poisoned then .err .MutexLockError else .ok ()

/-- src/api.rs 959-966: `is_valid_word`. -/
def is_valid_word (poisoned : Bool) (v : Int) : Outcome Int :=
  if poisoned then .err .MutexLockError else .ok v

/-- src/api.rs 973-984: `get_text_direction`. -/
def get_text_direction (poisoned : Bool) (deg conf : Int) : Outcome (Int × Int) :=
  if poisoned then .err .MutexLockError else .ok (deg, conf)

/-- src/api.rs 998-1022: `init_1`. -/
def init_1 (poisoned : Bool) (status : Int) : Outcome Unit :=
  if poisoned then .err .MutexLockError
  else if status ≠ 0 then .err .InitError else .ok ()

/-- src/api.rs 1035-1049: `init_2`. -/
def init_2 (poisoned : Bool) (status : Int) : Outcome Unit :=
  if poisoned then .err .MutexLockError
  else if status ≠ 0 then .err .InitError else .ok ()

/-- src/api.rs 1063-1087: `init_4`. -/
def init_4 (poisoned : Bool) (status : Int) : Outcome Unit :=
  if poisoned then .err .MutexLockError
  else if status ≠ 0 then .err .InitError else .ok ()

/-- src/api.rs 1102-1133: `init_5`. -/
def init_5 (poisoned : Bool) (status : Int) : Outcome Unit :=
  if poisoned then .err .MutexLockError
  else if status ≠ 0 then .err .InitError else .ok ()

/-- src/api.rs 1144-1167: `set_image`: the buffer and the four numeric
arguments are forwarded to `TessBaseAPISetImage` with no host-side
validation whatsoever; the only failure is a poisoned lock. -/
def set_image (poisoned : Bool) (_image_data : List Nat)
    (_width _height _bytes_per_pixel _bytes_per_line : Int) : Outcome Unit :=
  if poisoned then .err .MutexLockError else .ok ()

/-- src/api.rs 1178-1185: `set_image_2`. -/
def set_image_2 (poisoned : Bool) : Outcome Unit :=
  if poisoned then .err .MutexLockError else .ok ()

/-- src/api.rs 1196-1203: `set_source_resolution`. -/
def set_source_resolution (poisoned : Bool) : Outcome Unit :=
  if poisoned then .err .MutexLockError else .ok ()

/-- src/api.rs 1217-1224: `set_rectangle`. -/
def set_rectangle (poisoned : Bool) : Outcome Unit :=
  if poisoned then .err .MutexLockError else .ok ()

/-- src/api.rs 1231-1244: `get_utf8_text`; null becomes `OcrError`; on a
decode failure `?` skips `TessDeleteText`; on success exactly one
`TessDeleteText`. -/
def get_utf8_text (poisoned : Bool) (textPtr : Option (Option String)) :
    Outcome String × List NativeCall :=
  if poisoned then (.err .MutexLockError, [])
  else
    match textPtr with
    | none => (.err .OcrError, [])
    | some none => (.err .Utf8Error, [])
    | some (some s) => (.ok s, [.deleteText])

/-- src/api.rs 1251-1262: `get_iterator`. -/
def get_iterator (poisoned : Bool) (iter : Ptr) : Outcome ResultIterator :=
  if poisoned then .err .MutexLockError
  else
    match iter with
    | none => .err .NullPointerError
    | some p => .ok { handle := some p }

/-- src/api.rs 1269-1280: `get_mutable_iterator` (the source wraps the
pointer as a `ResultIterator`). -/
def get_mutable_iterator (poisoned : Bool) (iter : Ptr) : Outcome ResultIterator :=
  if poisoned then .err .MutexLockError
  else
    match iter with
    | none => .err .NullPointerError
    | some p => .ok { handle := some p }

/-- src/api.rs 1287-1298: `analyse_layout`. -/
def analyse_layout (poisoned : Bool) (iter : Ptr) : Outcome PageIterator :=
  if poisoned then .err .MutexLockError
  else
    match iter with
    | none => .err .NullPointerError
    | some p => .ok { handle := some p }

/-- src/api.rs 1309-1317: `get_unichar` (associated function, no handle
and no lock). -/
def get_unichar (charPtr : Option (Option String)) : Outcome String :=
  match charPtr with
  | none => .err .NullPointerError
  | some none => .err .Utf8Error
  | some (some s) => .ok s

/-- src/api.rs 1320-1330: `analyze_layout` (duplicate of
`analyse_layout`). -/
def analyze_layout (poisoned : Bool) (iter : Ptr) : Outcome PageIterator :=
  if poisoned then .err .MutexLockError
  else
    match iter with
    | none => .err .NullPointerError
    | some p => .ok { handle := some p }

/-- src/api.rs 1333-1360: `get_iterators`: first `self.recognize()?`; then,
holding the lock, `TessBaseAPIAnalyseLayout` and `TessBaseAPIGetIterator`;
if either pointer is null the non-null one is deleted and
`NullPointerError` returned; only with both non-null is the pair wrapped. -/
def get_iterators (poisoned : Bool) (recognizeStatus : Int)
    (pageIter resultIter : Ptr) :
    Outcome (PageIterator × ResultIterator) × List NativeCall :=
  match recognize poisoned recognizeStatus with
  | .err e => (.err e, [])
  | .panicked => (.panicked, [])
  | .ub => (.ub, [])
  | .ok _ =>
    if poisoned then (.err .MutexLockError, [.recognizeCall])
    else
      match pageIter, resultIter with
      | some p, some r =>
        (.ok ({ handle := some p }, { handle := some r }),
         [.recognizeCall, .analyseLayoutCall, .getIteratorCall])
      | some p, none =>
        (.err .NullPointerError,
         [.recognizeCall, .analyseLayoutCall, .getIteratorCall,
          .pageIteratorDelete (some p)])
      | none, some r =>
        (.err .NullPointerError,
         [.recognizeCall, .analyseLayoutCall, .getIteratorCall,
          .resultIteratorDelete (some r)])
      | none, none =>
        (.err .NullPointerError,
         [.recognizeCall, .analyseLayoutCall, .getIteratorCall])

/-- src/api.rs 1363-1371: `Drop for TesseractAPI`: `if let Ok(handle) =
self.handle.lock()` — on a poisoned mutex the delete is silently skipped,
otherwise exactly one `TessBaseAPIDelete`. -/
def drop (poisoned : Bool) (h : Ptr) : Outcome Unit × List NativeCall :=
  if poisoned then (.ok (), []) else (.ok (), [.baseAPIDelete h])

end TesseractAPI

namespace PageIterator

/-- src/page_iterator.rs 27-31: `PageIterator::new` wraps the given pointer
unconditionally. -/
def new (h : Ptr) : PageIterator := { handle := h }

/-- src/page_iterator.rs 34-37: `begin` — `self.handle.lock().unwrap()`
panics on a poisoned mutex. -/
def begin (poisoned : Bool) : Outcome Unit :=
  if poisoned then .panicked else .ok ()

/-- src/page_iterator.rs 48-51: `next` — `lock().unwrap()` panics on a
poisoned mutex; otherwise the native status is returned as a bool. -/
def next (poisoned : Bool) (_level : Int) (status : Int) : Outcome Bool :=
  if poisoned then .panicked else .ok (status ≠ 0)

/-- src/page_iterator.rs 62-65: `is_at_beginning_of`. -/
def is_at_beginning_of (poisoned : Bool) (_level : Int) (status : Int) : Outcome Bool :=
  if poisoned then .panicked else .ok (status ≠ 0)

/-- src/page_iterator.rs 77-84: `is_at_final_element`. -/
def is_at_final_element (poisoned : Bool) (_level _element : Int) (status : Int) :
    Outcome Bool :=
  if poisoned then .panicked else .ok (status ≠ 0)

/-- src/page_iterator.rs 95-119: `bounding_box`; zero native status becomes
`InvalidParameterError`. -/
def bounding_box (poisoned : Bool) (_level : Int) (status left top right bottom : Int) :
    Outcome (Int × Int × Int × Int) :=
  if poisoned then .panicked
  else if status = 0 then .err .InvalidParameterError
  else .ok (left, top, right, bottom)

/-- src/page_iterator.rs 126-130: `block_type`. -/
def block_type (poisoned : Bool) (v : Int) : Outcome Int :=
  if poisoned then .panicked else .ok v

/-- src/page_iterator.rs 141-154: `baseline`. -/
def baseline (poisoned : Bool) (_level : Int) (status x1 y1 x2 y2 : Int) :
    Outcome (Int × Int × Int × Int) :=
  if poisoned then .panicked
  else if status = 0 then .err .InvalidParameterError
  else .ok (x1, y1, x2, y2)

/-- src/page_iterator.rs 161-196: `orientation` (enums carried as raw
ints, deskew angle opaquely). -/
def orientation (poisoned : Bool) (status o w t angle : Int) :
    Outcome (Int × Int × Int × Int) :=
  if poisoned then .panicked
  else if status = 0 then .err .InvalidParameterError
  else .ok (o, w, t, angle)

/-- src/page_iterator.rs 203-230: `paragraph_info`. -/
def paragraph_info (poisoned : Bool) (status just : Int) (isListItem isCrown : Bool)
    (firstLineIndent : Int) : Outcome (Int × Bool × Bool × Int) :=
  if poisoned then .panicked
  else if status = 0 then .err .InvalidParameterError
  else .ok (just, isListItem, isCrown, firstLineIndent)

/-- src/page_iterator.rs 233-238: `Drop for PageIterator` —
`self.handle.lock().unwrap()` panics on a poisoned mutex (the delete is
then not reached); otherwise exactly one `TessPageIteratorDelete`. -/
def drop (poisoned : Bool) (h : Ptr) : Outcome Unit × List NativeCall :=
  if poisoned then (.panicked, []) else (.ok (), [.pageIteratorDelete h])

end PageIterator

namespace ResultIterator

/-- src/result_iterator.rs 25-29: `ResultIterator::new`. -/
def new (h : Ptr) : ResultIterator := { handle := h }

/-- src/result_iterator.rs 40-53: `get_utf8_text`; poisoned lock becomes
`MutexLockError`; null text becomes `NullPointerError`; decode failure
skips `TessDeleteText`. -/
def get_utf8_text (poisoned : Bool) (_level : Int) (textPtr : Option (Option String)) :
    Outcome String × List NativeCall :=
  if poisoned then (.err .MutexLockError, [])
  else
    match textPtr with
    | none => (.err .NullPointerError, [])
    | some none => (.err .Utf8Error, [])
    | some (some s) => (.ok s, [.deleteText])

/-- src/result_iterator.rs 64-70: `confidence` (float carried opaquely). -/
def confidence (poisoned : Bool) (_level : Int) (v : Int) : Outcome Int :=
  if poisoned then .err .MutexLockError else .ok v

/-- src/result_iterator.rs 77-88: `word_recognition_language`. -/
def word_recognition_language (poisoned : Bool) (langPtr : Option (Option String)) :
    Outcome String :=
  if poisoned then .err .MutexLockError
  else
    match langPtr with
    | none => .err .NullPointerError
    | some none => .err .Utf8Error
    | some (some s) => .ok s

/-- src/result_iterator.rs 95-137: `word_font_attributes`. -/
def word_font_attributes (poisoned : Bool)
    (status bold italic underlined monospace serif smallcaps pointsize fontId : Int) :
    Outcome ((Bool × Bool × Bool × Bool × Bool × Bool) × Int × Int) :=
  if poisoned then .err .MutexLockError
  else if status = 0 then .err .InvalidParameterError
  else .ok ((bold ≠ 0, italic ≠ 0, underlined ≠ 0, monospace ≠ 0,
             serif ≠ 0, smallcaps ≠ 0), pointsize, fontId)

/-- src/result_iterator.rs 144-150: `word_is_from_dictionary`. -/
def word_is_from_dictionary (poisoned : Bool) (v : Int) : Outcome Bool :=
  if poisoned then .err .MutexLockError else .ok (v ≠ 0)

/-- src/result_iterator.rs 157-163: `word_is_numeric`. -/
def word_is_numeric (poisoned : Bool) (v : Int) : Outcome Bool :=
  if poisoned then .err .MutexLockError else .ok (v ≠ 0)

/-- src/result_iterator.rs 170-176: `symbol_is_superscript`. -/
def symbol_is_superscript (poisoned : Bool) (v : Int) : Outcome Bool :=
  if poisoned then .err .MutexLockError else .ok (v ≠ 0)

/-- src/result_iterator.rs 183-189: `symbol_is_subscript`. -/
def symbol_is_subscript (poisoned : Bool) (v : Int) : Outcome Bool :=
  if poisoned then .err .MutexLockError else .ok (v ≠ 0)

/-- src/result_iterator.rs 196-202: `symbol_is_dropcap`. -/
def symbol_is_dropcap (poisoned : Bool) (v : Int) : Outcome Bool :=
  if poisoned then .err .MutexLockError else .ok (v ≠ 0)

/-- src/result_iterator.rs 213-219: `next`. -/
def next (poisoned : Bool) (_level : Int) (status : Int) : Outcome Bool :=
  if poisoned then .err .MutexLockError else .ok (status ≠ 0)

/-- src/result_iterator.rs 257-284: `get_bounding_box`. -/
def get_bounding_box (poisoned : Bool) (_level : Int)
    (status left top right bottom : Int) : Outcome (Int × Int × Int × Int) :=
  if poisoned then .err .MutexLockError
  else if status = 0 then .err .InvalidParameterError
  else .ok (left, top, right, bottom)

/-- src/result_iterator.rs 226-232: `get_word_with_bounds` = `get_utf8_text`
then `get_bounding_box` then `confidence`, each `?`-propagated. -/
def get_word_with_bounds (poisoned : Bool) (textPtr : Option (Option String))
    (bbStatus left top right bottom conf : Int) :
    Outcome (String × Int × Int × Int × Int × Int) :=
  match (get_utf8_text poisoned 3 textPtr).1 with
  | .err e => .err e
  | .panicked => .panicked
  | .ub => .ub
  | .ok text =>
    match get_bounding_box poisoned 3 bbStatus left top right bottom with
    | .err e => .err e
    | .panicked => .panicked
    | .ub => .ub
    | .ok (l, t, r, b) =>
      match confidence poisoned 3 conf with
      | .err e => .err e
      | .panicked => .panicked
      | .ub => .ub
      | .ok c => .ok (text, l, t, r, b, c)

/-- src/result_iterator.rs 239-241: `next_word` = `next` at word level. -/
def next_word (poisoned : Bool) (status : Int) : Outcome Bool :=
  next poisoned 3 status

/-- src/result_iterator.rs 248-254: `get_current_word` (same body as
`get_word_with_bounds`). -/
def get_current_word (poisoned : Bool) (textPtr : Option (Option String))
    (bbStatus left top right bottom conf : Int) :
    Outcome (String × Int × Int × Int × Int × Int) :=
  get_word_with_bounds poisoned textPtr bbStatus left top right bottom conf

/-- src/result_iterator.rs 287-293: `Drop for ResultIterator` — `if let
Ok(handle)`: skipped silently on poison, else one
`TessResultIteratorDelete`. -/
def drop (poisoned : Bool) (h : Ptr) : Outcome Unit × List NativeCall :=
  if poisoned then (.ok (), []) else (.ok (), [.resultIteratorDelete h])

end ResultIterator

namespace MutableIterator

/-- src/mutable_iterator.rs 28-32: `MutableIterator::new`. -/
def new (h : Ptr) : MutableIterator := { handle := h }

/-- src/mutable_iterator.rs 39-49: `get_utf8_text`; note the poisoned lock
maps to `MutexError`, not `MutexLockError`. -/
def get_utf8_text (poisoned : Bool) (_level : Int) (textPtr : Option (Option String)) :
    Outcome String × List NativeCall :=
  if poisoned then (.err .MutexError, [])
  else
    match textPtr with
    | none => (.err .NullPointerError, [])
    | some none => (.err .Utf8Error, [])
    | some (some s) => (.ok s, [.deleteText])

/-- src/mutable_iterator.rs 56-59: `confidence`. -/
def confidence (poisoned : Bool) (_level : Int) (v : Int) : Outcome Int :=
  if poisoned then .err .MutexError else .ok v

/-- src/mutable_iterator.rs 66-74: `word_recognition_language`. -/
def word_recognition_language (poisoned : Bool) (langPtr : Option (Option String)) :
    Outcome String :=
  if poisoned then .err .MutexError
  else
    match langPtr with
    | none => .err .NullPointerError
    | some none => .err .Utf8Error
    | some (some s) => .ok s

/-- src/mutable_iterator.rs 81-120: `word_font_attributes`. -/
def word_font_attributes (poisoned : Bool)
    (status bold italic underlined monospace serif smallcaps pointsize fontId : Int) :
    Outcome ((Bool × Bool × Bool × Bool × Bool × Bool) × Int × Int) :=
  if poisoned then .err .MutexError
  else if status = 0 then .err .InvalidParameterError
  else .ok ((bold ≠ 0, italic ≠ 0, underlined ≠ 0, monospace ≠ 0,
             serif ≠ 0, smallcaps ≠ 0), pointsize, fontId)

/-- src/mutable_iterator.rs 127-130: `word_is_from_dictionary`. -/
def word_is_from_dictionary (poisoned : Bool) (v : Int) : Outcome Bool :=
  if poisoned then .err .MutexError else .ok (v ≠ 0)

/-- src/mutable_iterator.rs 137-140: `word_is_numeric`. -/
def word_is_numeric (poisoned : Bool) (v : Int) : Outcome Bool :=
  if poisoned then .err .MutexError else .ok (v ≠ 0)

/-- src/mutable_iterator.rs 147-150: `symbol_is_superscript`. -/
def symbol_is_superscript (poisoned : Bool) (v : Int) : Outcome Bool :=
  if poisoned then .err .MutexError else .ok (v ≠ 0)

/-- src/mutable_iterator.rs 157-160: `symbol_is_subscript`. -/
def symbol_is_subscript (poisoned : Bool) (v : Int) : Outcome Bool :=
  if poisoned then .err .MutexError else .ok (v ≠ 0)

/-- src/mutable_iterator.rs 167-170: `symbol_is_dropcap`. -/
def symbol_is_dropcap (poisoned : Bool) (v : Int) : Outcome Bool :=
  if poisoned then .err .MutexError else .ok (v ≠ 0)

/-- src/mutable_iterator.rs 181-184: `next`; poisoned lock maps to
`MutexError`. -/
def next (poisoned : Bool) (_level : Int) (status : Int) : Outcome Bool :=
  if poisoned then .err .MutexError else .ok (status ≠ 0)

/-- src/mutable_iterator.rs 196-201: `set_value`. -/
def set_value (poisoned : Bool) (_level : Int) (status : Int) : Outcome Bool :=
  if poisoned then .err .MutexError else .ok (status ≠ 0)

/-- src/mutable_iterator.rs 208-212: `delete` (calls
`TessMutableIteratorDelete` explicitly and reports its status). -/
def delete (poisoned : Bool) (status : Int) : Outcome Bool :=
  if poisoned then .err .MutexError else .ok (status ≠ 0)

/-- src/mutable_iterator.rs 215-221: `Drop for MutableIterator` — `if let
Ok(handle)`: skipped silently on poison, else one
`TessResultIteratorDelete`. -/
def drop (poisoned : Bool) (h : Ptr) : Outcome Unit × List NativeCall :=
  if poisoned then (.ok (), []) else (.ok (), [.resultIteratorDelete h])

end MutableIterator

namespace ChoiceIterator

/-- src/choice_iterator.rs 20-24: `ChoiceIterator::new`. -/
def new (h : Ptr) : ChoiceIterator := { handle := h }

/-- src/choice_iterator.rs 31-37: `next`. -/
def next (poisoned : Bool) (status : Int) : Outcome Bool :=
  if poisoned then .err .MutexLockError else .ok (status ≠ 0)

/-- src/choice_iterator.rs 44-57: `get_utf8_text`. -/
def get_utf8_text (poisoned : Bool) (textPtr : Option (Option String)) :
    Outcome String × List NativeCall :=
  if poisoned then (.err .MutexLockError, [])
  else
    match textPtr with
    | none => (.err .NullPointerError, [])
    | some none => (.err .Utf8Error, [])
    | some (some s) => (.ok s, [.deleteText])

/-- src/choice_iterator.rs 64-70: `confidence`. -/
def confidence (poisoned : Bool) (v : Int) : Outcome Int :=
  if poisoned then .err .MutexLockError else .ok v

/-- src/choice_iterator.rs 73-79: `Drop for ChoiceIterator` — `if let
Ok(handle)`: skipped silently on poison. -/
def drop (poisoned : Bool) (h : Ptr) : Outcome Unit × List NativeCall :=
  if poisoned then (.ok (), []) else (.ok (), [.choiceIteratorDelete h])

end ChoiceIterator

namespace TessMonitor

/-- src/monitor.rs 17-22: `TessMonitor::new` wraps whatever
`TessMonitorCreate` returned; no null check, infallible return type. -/
def new (created : Ptr) : TessMonitor := { handle := created }

/-- src/monitor.rs 29-32: `set_deadline` — `lock().unwrap()` panics on a
poisoned mutex. -/
def set_deadline (poisoned : Bool) (_deadline : Int) : Outcome Unit :=
  if poisoned then .panicked else .ok ()

/-- src/monitor.rs 39-42: `get_progress` — `lock().unwrap()`. -/
def get_progress (poisoned : Bool) (v : Int) : Outcome Int :=
  if poisoned then .panicked else .ok v

/-- src/monitor.rs 45-50: `Drop for TessMonitor` — `lock().unwrap()`
panics on a poisoned mutex; otherwise one `TessMonitorDelete`. -/
def drop (poisoned : Bool) (h : Ptr) : Outcome Unit × List NativeCall :=
  if poisoned then (.panicked, []) else (.ok (), [.monitorDelete h])

end TessMonitor

namespace TessResultRenderer

/-- src/result_renderer.rs 25-35: `new_text_renderer`; a null handle from
`TessTextRendererCreate` becomes `NullPointerError` and no wrapper is
built. -/
def new_text_renderer (created : Ptr) : Outcome TessResultRenderer :=
  match created with
  | none => .err .NullPointerError
  | some p => .ok { handle := some p }

/-- src/result_renderer.rs 46-56: `new_hocr_renderer`. -/
def new_hocr_renderer (created : Ptr) : Outcome TessResultRenderer :=
  match created with
  | none => .err .NullPointerError
  | some p => .ok { handle := some p }

/-- src/result_renderer.rs 69-82: `new_pdf_renderer`. -/
def new_pdf_renderer (created : Ptr) : Outcome TessResultRenderer :=
  match created with
  | none => .err .NullPointerError
  | some p => .ok { handle := some p }

/-- src/result_renderer.rs 93-97: `begin_document` — `lock().unwrap()`
panics on a poisoned mutex. -/
def begin_document (poisoned : Bool) (status : Int) : Outcome Bool :=
  if poisoned then .panicked else .ok (status ≠ 0)

/-- src/result_renderer.rs 108-112: `add_image` locks the engine facade's
mutex first, then the renderer's own, both via `unwrap`. -/
def add_image (apiPoisoned rendererPoisoned : Bool) (status : Int) : Outcome Bool :=
  if apiPoisoned then .panicked
  else if rendererPoisoned then .panicked
  else .ok (status ≠ 0)

/-- src/result_renderer.rs 119-122: `end_document`. -/
def end_document (poisoned : Bool) (status : Int) : Outcome Bool :=
  if poisoned then .panicked else .ok (status ≠ 0)

/-- src/result_renderer.rs 129-138: `get_extension` — `lock().unwrap()`,
then null check and decode (no deallocation; engine-owned string). -/
def get_extension (poisoned : Bool) (extPtr : Option (Option String)) :
    Outcome String :=
  if poisoned then .panicked
  else
    match extPtr with
    | none => .err .NullPointerError
    | some none => .err .Utf8Error
    | some (some s) => .ok s

/-- src/result_renderer.rs 145-154: `get_title`. -/
def get_title (poisoned : Bool) (titlePtr : Option (Option String)) :
    Outcome String :=
  if poisoned then .panicked
  else
    match titlePtr with
    | none => .err .NullPointerError
    | some none => .err .Utf8Error
    | some (some s) => .ok s

/-- src/result_renderer.rs 161-164: `get_image_num`. -/
def get_image_num (poisoned : Bool) (v : Int) : Outcome Int :=
  if poisoned then .panicked else .ok v

/-- src/result_renderer.rs 167-172: `Drop for TessResultRenderer` —
`lock().unwrap()` panics on a poisoned mutex; otherwise one
`TessDeleteResultRenderer`. -/
def drop (poisoned : Bool) (h : Ptr) : Outcome Unit × List NativeCall :=
  if poisoned then (.panicked, []) else (.ok (), [.deleteResultRenderer h])

end TessResultRenderer

/-! Lock-ordering model for `add_image` (claim about deadlock freedom).
`add_image` (src/result_renderer.rs 108-112) is the only operation in the
repository that holds two mutexes at once. -/

/-- Identity of a mutex that `add_image` may take: the engine facade's
handle lock or a renderer's handle lock, tagged by instance. -/
inductive LockId where
  | engine (e : Nat)
  | renderer (r : Nat)
  deriving DecidableEq, Repr

/-- One `add_image` call as an event trace (src/result_renderer.rs
108-112): `api.handle.lock()` first, then `self.handle.lock()`; the native
`TessResultRendererAddImage` call runs with both held; guards are released
on scope exit in reverse declaration order. -/
inductive LockEvent where
  | acquire (l : LockId)
  | nativeAddImage
  | release (l : LockId)
  deriving DecidableEq, Repr

/-- Event trace of `add_image` on engine `e` and renderer `r`. -/
def addImageEvents (e r : Nat) : List LockEvent :=
  [.acquire (.engine e), .acquire (.renderer r), .nativeAddImage,
   .release (.renderer r), .release (.engine e)]

/-- Lock acquisition order of one `add_image` call: engine facade's mutex
first, renderer's mutex second. -/
def addImageLockOrder (e r : Nat) : List LockId :=
  [.engine e, .renderer r]

/-- `acquiresBefore seq a b`: the thread following acquisition sequence
`seq` takes lock `a` strictly before lock `b` (and takes both). -/
def acquiresBefore (seq : List LockId) (a b : LockId) : Prop :=
  a ∈ seq ∧ b ∈ seq ∧ seq.indexOf a < seq.indexOf b

/-- Two threads that each acquire their listed locks in order, holding
earlier ones while waiting for later ones, can reach a circular wait
exactly when some pair of locks is acquired in opposite orders. -/
def canDeadlock (s1 s2 : List LockId) : Prop :=
  ∃ a b, a ≠ b ∧ acquiresBefore s1 a b ∧ acquiresBefore s2 b a

/-! Deterministic-oracle model of the native engine for the idempotence
claim about `get_word_confidences`. -/

/-- The native engine as a deterministic oracle over an abstract state:
`setImage` and `recognizeStep` are the state transitions of the native
calls issued by `set_image` and `recognize`; `allWordConfidences` is the
sentinel-terminated buffer `TessBaseAPIAllWordConfidences` produces, a
read of the recognition result that leaves the state unchanged. -/
structure NativeEngineModel (σ : Type) where
  setImage : σ → σ
  recognizeStep : σ → σ × Int
  allWordConfidences : σ → List Int

/-- The host-level wrapper `get_word_confidences` run against the engine
model: it acquires the lock, issues the single read-only native call for
the current state, converts the buffer, and returns the state it leaves
behind.  The wrapper keeps no host-side cache and issues no state-changing
native call (src/api.rs 77-91). -/
def get_word_confidences_st {σ : Type} (m : NativeEngineModel σ)
    (poisoned : Bool) (s : σ) : (Outcome (List Int) × List NativeCall) × σ :=
  (TesseractAPI.get_word_confidences poisoned (some (m.allWordConfidences s)), s)

/-- The scenario of the idempotence claim: one `set_image`, one
`recognize`, then `get_word_confidences` twice with no intervening
operation, threading the native state through every step; returns the two
host-visible results. -/
def confidenceScenario {σ : Type} (m : NativeEngineModel σ) (s0 : σ) :
    (Outcome (List Int) × List NativeCall) × (Outcome (List Int) × List NativeCall) :=
  let s1 := m.setImage s0
  let s2 := (m.recognizeStep s1).1
  let (r1, s3) := get_word_confidences_st m false s2
  let (r2, _s4) := get_word_confidences_st m false s3
  (r1, r2)

/-! Behaviour catalogues used by the claim theorems. -/

/-- The five error variants the image-validation claim says are never
produced (src/error.rs 9-10 and 33-40). -/
def isBannedImageError : TesseractError → Bool
  | .SetImageError => true
  | .InvalidDimensions => true
  | .InvalidBytesPerPixel => true
  | .InvalidBytesPerLine => true
  | .InvalidImageData => true
  | _ => false

/-- Catalogue: every handle-using engine-facade operation maps a poisoned
mutex to `MutexLockError` (the `lock().map_err(|_| MutexLockError)?`
pattern used throughout src/api.rs). -/
def EnginePoisonBehaviour : Prop :=
  (∀ s, TesseractAPI.init true s = .err .MutexLockError) ∧
  (∀ b, TesseractAPI.get_word_confidences true b = (.err .MutexLockError, [])) ∧
  (∀ v, TesseractAPI.mean_text_conf true v = .err .MutexLockError) ∧
  (∀ s, TesseractAPI.set_variable true s = .err .MutexLockError) ∧
  (∀ v, TesseractAPI.get_string_variable true v = .err .MutexLockError) ∧
  (∀ v, TesseractAPI.get_int_variable true v = .err .MutexLockError) ∧
  (∀ v, TesseractAPI.get_bool_variable true v = .err .MutexLockError) ∧
  (∀ v, TesseractAPI.get_double_variable true v = .err .MutexLockError) ∧
  (TesseractAPI.set_page_seg_mode true = .err .MutexLockError) ∧
  (∀ m, TesseractAPI.get_page_seg_mode true m = .err .MutexLockError) ∧
  (∀ s, TesseractAPI.recognize true s = .err .MutexLockError) ∧
  (∀ p t, TesseractAPI.get_hocr_text true p t = (.err .MutexLockError, [])) ∧
  (∀ p t, TesseractAPI.get_alto_text true p t = (.err .MutexLockError, [])) ∧
  (∀ p t, TesseractAPI.get_tsv_text true p t = (.err .MutexLockError, [])) ∧
  (TesseractAPI.set_input_name true = .err .MutexLockError) ∧
  (∀ v, TesseractAPI.get_input_name true v = .err .MutexLockError) ∧
  (∀ v, TesseractAPI.get_datapath true v = .err .MutexLockError) ∧
  (∀ v, TesseractAPI.get_source_y_resolution true v = .err .MutexLockError) ∧
  (∀ p, TesseractAPI.get_thresholded_image true p = .err .MutexLockError) ∧
  (∀ p t, TesseractAPI.get_box_text true p t = (.err .MutexLockError, [])) ∧
  (∀ p t, TesseractAPI.get_lstm_box_text true p t = (.err .MutexLockError, [])) ∧
  (∀ p t, TesseractAPI.get_word_str_box_text true p t = (.err .MutexLockError, [])) ∧
  (∀ t, TesseractAPI.get_unlv_text true t = (.err .MutexLockError, [])) ∧
  (∀ b, TesseractAPI.all_word_confidences true b = (.err .MutexLockError, [])) ∧
  (∀ s, TesseractAPI.adapt_to_word_str true s = .err .MutexLockError) ∧
  (∀ s d c sp sc, TesseractAPI.detect_os true s d c sp sc = (.err .MutexLockError, [])) ∧
  (TesseractAPI.set_min_orientation_margin true = .err .MutexLockError) ∧
  (∀ p, TesseractAPI.get_page_iterator true p = .err .MutexLockError) ∧
  (TesseractAPI.set_input_image true = .err .MutexLockError) ∧
  (∀ p, TesseractAPI.get_input_image true p = .err .MutexLockError) ∧
  (TesseractAPI.set_output_name true = .err .MutexLockError) ∧
  (∀ s, TesseractAPI.set_debug_variable true s = .err .MutexLockError) ∧
  (∀ s, TesseractAPI.print_variables_to_file true s = .err .MutexLockError) ∧
  (TesseractAPI.init_for_analyse_page true = .err .MutexLockError) ∧
  (TesseractAPI.read_config_file true = .err .MutexLockError) ∧
  (TesseractAPI.read_debug_config_file true = .err .MutexLockError) ∧
  (∀ v, TesseractAPI.get_thresholded_image_scale_factor true v = .err .MutexLockError) ∧
  (∀ t, TesseractAPI.process_pages true t = (.err .MutexLockError, [])) ∧
  (∀ v, TesseractAPI.get_init_languages_as_string true v = .err .MutexLockError) ∧
  (∀ v, TesseractAPI.get_loaded_languages true v = (.err .MutexLockError, [])) ∧
  (∀ v, TesseractAPI.get_available_languages true v = (.err .MutexLockError, [])) ∧
  (TesseractAPI.clear_adaptive_classifier true = .err .MutexLockError) ∧
  (TesseractAPI.clear true = .err .MutexLockError) ∧
  (TesseractAPI.endEngine true = .err .MutexLockError) ∧
  (∀ v, TesseractAPI.is_valid_word true v = .err .MutexLockError) ∧
  (∀ d c, TesseractAPI.get_text_direction true d c = .err .MutexLockError) ∧
  (∀ s, TesseractAPI.init_1 true s = .err .MutexLockError) ∧
  (∀ s, TesseractAPI.init_2 true s = .err .MutexLockError) ∧
  (∀ s, TesseractAPI.init_4 true s = .err .MutexLockError) ∧
  (∀ s, TesseractAPI.init_5 true s = .err .MutexLockError) ∧
  (∀ d w h bpp bpl, TesseractAPI.set_image true d w h bpp bpl = .err .MutexLockError) ∧
  (TesseractAPI.set_image_2 true = .err .MutexLockError) ∧
  (TesseractAPI.set_source_resolution true = .err .MutexLockError) ∧
  (TesseractAPI.set_rectangle true = .err .MutexLockError) ∧
  (∀ t, TesseractAPI.get_utf8_text true t = (.err .MutexLockError, [])) ∧
  (∀ p, TesseractAPI.get_iterator true p = .err .MutexLockError) ∧
  (∀ p, TesseractAPI.get_mutable_iterator true p = .err .MutexLockError) ∧
  (∀ p, TesseractAPI.analyse_layout true p = .err .MutexLockError) ∧
  (∀ p, TesseractAPI.analyze_layout true p = .err .MutexLockError) ∧
  (∀ s q r, TesseractAPI.get_iterators true s q r = (.err .MutexLockError, []))

/-- Catalogue: every operation of the result iterator and the choice
iterator maps a poisoned mutex to `MutexLockError`. -/
def ResultChoicePoisonBehaviour : Prop :=
  (∀ l t, ResultIterator.get_utf8_text true l t = (.err .MutexLockError, [])) ∧
  (∀ l v, ResultIterator.confidence true l v = .err .MutexLockError) ∧
  (∀ v, ResultIterator.word_recognition_language true v = .err .MutexLockError) ∧
  (∀ a b c d e f g h i,
    ResultIterator.word_font_attributes true a b c d e f g h i = .err .MutexLockError) ∧
  (∀ v, ResultIterator.word_is_from_dictionary true v = .err .MutexLockError) ∧
  (∀ v, ResultIterator.word_is_numeric true v = .err .MutexLockError) ∧
  (∀ v, ResultIterator.symbol_is_superscript true v = .err .MutexLockError) ∧
  (∀ v, ResultIterator.symbol_is_subscript true v = .err .MutexLockError) ∧
  (∀ v, ResultIterator.symbol_is_dropcap true v = .err .MutexLockError) ∧
  (∀ l s, ResultIterator.next true l s = .err .MutexLockError) ∧
  (∀ l s a b c d, ResultIterator.get_bounding_box true l s a b c d = .err .MutexLockError) ∧
  (∀ t s a b c d cf,
    ResultIterator.get_word_with_bounds true t s a b c d cf = .err .MutexLockError) ∧
  (∀ s, ResultIterator.next_word true s = .err .MutexLockError) ∧
  (∀ t s a b c d cf,
    ResultIterator.get_current_word true t s a b c d cf = .err .MutexLockError) ∧
  (∀ s, ChoiceIterator.next true s = .err .MutexLockError) ∧
  (∀ t, ChoiceIterator.get_utf8_text true t = (.err .MutexLockError, [])) ∧
  (∀ v, ChoiceIterator.confidence true v = .err .MutexLockError)

/-- Catalogue: every mutable-iterator operation maps a poisoned mutex to
`MutexError` — a different variant than the rest of the codebase uses. -/
def MutablePoisonBehaviour : Prop :=
  (∀ l t, MutableIterator.get_utf8_text true l t = (.err .MutexError, [])) ∧
  (∀ l v, MutableIterator.confidence true l v = .err .MutexError) ∧
  (∀ v, MutableIterator.word_recognition_language true v = .err .MutexError) ∧
  (∀ a b c d e f g h i,
    MutableIterator.word_font_attributes true a b c d e f g h i = .err .MutexError) ∧
  (∀ v, MutableIterator.word_is_from_dictionary true v = .err .MutexError) ∧
  (∀ v, MutableIterator.word_is_numeric true v = .err .MutexError) ∧
  (∀ v, MutableIterator.symbol_is_superscript true v = .err .MutexError) ∧
  (∀ v, MutableIterator.symbol_is_subscript true v = .err .MutexError) ∧
  (∀ v, MutableIterator.symbol_is_dropcap true v = .err .MutexError) ∧
  (∀ l s, MutableIterator.next true l s = .err .MutexError) ∧
  (∀ l s, MutableIterator.set_value true l s = .err .MutexError) ∧
  (∀ s, MutableIterator.delete true s = .err .MutexError)

/-- Catalogue: every operation of the page iterator, the monitor and the
renderer panics on a poisoned mutex (`lock().unwrap()`). -/
def PanicOpsOnPoison : Prop :=
  (PageIterator.begin true = .panicked) ∧
  (∀ l s, PageIterator.next true l s = .panicked) ∧
  (∀ l s, PageIterator.is_at_beginning_of true l s = .panicked) ∧
  (∀ l e s, PageIterator.is_at_final_element true l e s = .panicked) ∧
  (∀ l s a b c d, PageIterator.bounding_box true l s a b c d = .panicked) ∧
  (∀ v, PageIterator.block_type true v = .panicked) ∧
  (∀ l s a b c d, PageIterator.baseline true l s a b c d = .panicked) ∧
  (∀ s o w t g, PageIterator.orientation true s o w t g = .panicked) ∧
  (∀ s j li cr f, PageIterator.paragraph_info true s j li cr f = .panicked) ∧
  (∀ d, TessMonitor.set_deadline true d = .panicked) ∧
  (∀ v, TessMonitor.get_progress true v = .panicked) ∧
  (∀ s, TessResultRenderer.begin_document true s = .panicked) ∧
  (∀ p s, TessResultRenderer.add_image true p s = .panicked) ∧
  (∀ s, TessResultRenderer.add_image false true s = .panicked) ∧
  (∀ s, TessResultRenderer.end_document true s = .panicked) ∧
  (∀ t, TessResultRenderer.get_extension true t = .panicked) ∧
  (∀ t, TessResultRenderer.get_title true t = .panicked) ∧
  (∀ v, TessResultRenderer.get_image_num true v = .panicked)

/-- Catalogue: drop behaviour of every wrapper, healthy and poisoned
(src/api.rs 1363-1371, src/page_iterator.rs 233-238, src/result_iterator.rs
287-293, src/mutable_iterator.rs 215-221, src/choice_iterator.rs 73-79,
src/monitor.rs 45-50, src/result_renderer.rs 167-172). -/
def DropBehaviour : Prop :=
  (∀ h, TesseractAPI.drop false h = (.ok (), [.baseAPIDelete h])) ∧
  (∀ h, TesseractAPI.drop true h = (.ok (), [])) ∧
  (∀ h, PageIterator.drop false h = (.ok (), [.pageIteratorDelete h])) ∧
  (∀ h, PageIterator.drop true h = (.panicked, [])) ∧
  (∀ h, ResultIterator.drop false h = (.ok (), [.resultIteratorDelete h])) ∧
  (∀ h, ResultIterator.drop true h = (.ok (), [])) ∧
  (∀ h, MutableIterator.drop false h = (.ok (), [.resultIteratorDelete h])) ∧
  (∀ h, MutableIterator.drop true h = (.ok (), [])) ∧
  (∀ h, ChoiceIterator.drop false h = (.ok (), [.choiceIteratorDelete h])) ∧
  (∀ h, ChoiceIterator.drop true h = (.ok (), [])) ∧
  (∀ h, TessMonitor.drop false h = (.ok (), [.monitorDelete h])) ∧
  (∀ h, TessMonitor.drop true h = (.panicked, [])) ∧
  (∀ h, TessResultRenderer.drop false h = (.ok (), [.deleteResultRenderer h])) ∧
  (∀ h, TessResultRenderer.drop true h = (.panicked, []))

/-- Catalogue: which constructors null-check the native handle (renderer
constructors and the facade's iterator getters do; `TesseractAPI::new` and
`TessMonitor::new` do not). -/
def ConstructorNullBehaviour : Prop :=
  (TessResultRenderer.new_text_renderer none = .err .NullPointerError) ∧
  (∀ p, TessResultRenderer.new_text_renderer (some p) = .ok { handle := some p }) ∧
  (TessResultRenderer.new_hocr_renderer none = .err .NullPointerError) ∧
  (∀ p, TessResultRenderer.new_hocr_renderer (some p) = .ok { handle := some p }) ∧
  (TessResultRenderer.new_pdf_renderer none = .err .NullPointerError) ∧
  (∀ p, TessResultRenderer.new_pdf_renderer (some p) = .ok { handle := some p }) ∧
  (TesseractAPI.get_page_iterator false none = .err .NullPointerError) ∧
  (∀ p, TesseractAPI.get_page_iterator false (some p) = .ok { handle := some p }) ∧
  (TesseractAPI.get_iterator false none = .err .NullPointerError) ∧
  (∀ p, TesseractAPI.get_iterator false (some p) = .ok { handle := some p }) ∧
  (TesseractAPI.get_mutable_iterator false none = .err .NullPointerError) ∧
  (∀ p, TesseractAPI.get_mutable_iterator false (some p) = .ok { handle := some p }) ∧
  (TesseractAPI.analyse_layout false none = .err .NullPointerError) ∧
  (∀ p, TesseractAPI.analyse_layout false (some p) = .ok { handle := some p }) ∧
  (TesseractAPI.analyze_layout false none = .err .NullPointerError) ∧
  (∀ p, TesseractAPI.analyze_layout false (some p) = .ok { handle := some p }) ∧
  (∀ p, (TesseractAPI.get_iterators false 0 (some p) none).1 =
    .err .NullPointerError) ∧
  (∀ r, (TesseractAPI.get_iterators false 0 none (some r)).1 =
    .err .NullPointerError) ∧
  ((TesseractAPI.get_iterators false 0 none none).1 = .err .NullPointerError) ∧
  (∀ p r, (TesseractAPI.get_iterators false 0 (some p) (some r)).1 =
    .ok ({ handle := some p }, { handle := some r })) ∧
  (∀ p, TesseractAPI.new p = { handle := p }) ∧
  (∀ p, TessMonitor.new p = { handle := p })

/-- Catalogue: no embedded operation of any wrapper type ever produces one
of the five image-validation error variants, for any lock state and any
native response. -/
def NoBannedImageErrors : Prop :=
  (∀ p s e, TesseractAPI.init p s = .err e → isBannedImageError e = false) ∧
  (∀ p b e, (TesseractAPI.get_word_confidences p b).1 = .err e → isBannedImageError e = false) ∧
  (∀ p v e, TesseractAPI.mean_text_conf p v = .err e → isBannedImageError e = false) ∧
  (∀ p s e, TesseractAPI.set_variable p s = .err e → isBannedImageError e = false) ∧
  (∀ p v e, TesseractAPI.get_string_variable p v = .err e → isBannedImageError e = false) ∧
  (∀ p v e, TesseractAPI.get_int_variable p v = .err e → isBannedImageError e = false) ∧
  (∀ p v e, TesseractAPI.get_bool_variable p v = .err e → isBannedImageError e = false) ∧
  (∀ p v e, TesseractAPI.get_double_variable p v = .err e → isBannedImageError e = false) ∧
  (∀ p e, TesseractAPI.set_page_seg_mode p = .err e → isBannedImageError e = false) ∧
  (∀ p m e, TesseractAPI.get_page_seg_mode p m = .err e → isBannedImageError e = false) ∧
  (∀ p s e, TesseractAPI.recognize p s = .err e → isBannedImageError e = false) ∧
  (∀ p g t e, (TesseractAPI.get_hocr_text p g t).1 = .err e → isBannedImageError e = false) ∧
  (∀ p g t e, (TesseractAPI.get_alto_text p g t).1 = .err e → isBannedImageError e = false) ∧
  (∀ p g t e, (TesseractAPI.get_tsv_text p g t).1 = .err e → isBannedImageError e = false) ∧
  (∀ p e, TesseractAPI.set_input_name p = .err e → isBannedImageError e = false) ∧
  (∀ p v e, TesseractAPI.get_input_name p v = .err e → isBannedImageError e = false) ∧
  (∀ p v e, TesseractAPI.get_datapath p v = .err e → isBannedImageError e = false) ∧
  (∀ p v e, TesseractAPI.get_source_y_resolution p v = .err e → isBannedImageError e = false) ∧
  (∀ p q e, TesseractAPI.get_thresholded_image p q = .err e → isBannedImageError e = false) ∧
  (∀ p g t e, (TesseractAPI.get_box_text p g t).1 = .err e → isBannedImageError e = false) ∧
  (∀ p g t e, (TesseractAPI.get_lstm_box_text p g t).1 = .err e → isBannedImageError e = false) ∧
  (∀ p g t e, (TesseractAPI.get_word_str_box_text p g t).1 = .err e → isBannedImageError e = false) ∧
  (∀ p t e, (TesseractAPI.get_unlv_text p t).1 = .err e → isBannedImageError e = false) ∧
  (∀ p b e, (TesseractAPI.all_word_confidences p b).1 = .err e → isBannedImageError e = false) ∧
  (∀ p s e, TesseractAPI.adapt_to_word_str p s = .err e → isBannedImageError e = false) ∧
  (∀ p s d c sp sc e, (TesseractAPI.detect_os p s d c sp sc).1 = .err e → isBannedImageError e = false) ∧
  (∀ p e, TesseractAPI.set_min_orientation_margin p = .err e → isBannedImageError e = false) ∧
  (∀ p q e, TesseractAPI.get_page_iterator p q = .err e → isBannedImageError e = false) ∧
  (∀ p e, TesseractAPI.set_input_image p = .err e → isBannedImageError e = false) ∧
  (∀ p q e, TesseractAPI.get_input_image p q = .err e → isBannedImageError e = false) ∧
  (∀ p e, TesseractAPI.set_output_name p = .err e → isBannedImageError e = false) ∧
  (∀ p s e, TesseractAPI.set_debug_variable p s = .err e → isBannedImageError e = false) ∧
  (∀ p s e, TesseractAPI.print_variables_to_file p s = .err e → isBannedImageError e = false) ∧
  (∀ p e, TesseractAPI.init_for_analyse_page p = .err e → isBannedImageError e = false) ∧
  (∀ p e, TesseractAPI.read_config_file p = .err e → isBannedImageError e = false) ∧
  (∀ p e, TesseractAPI.read_debug_config_file p = .err e → isBannedImageError e = false) ∧
  (∀ p v e, TesseractAPI.get_thresholded_image_scale_factor p v = .err e → isBannedImageError e = false) ∧
  (∀ p t e, (TesseractAPI.process_pages p t).1 = .err e → isBannedImageError e = false) ∧
  (∀ p v e, TesseractAPI.get_init_languages_as_string p v = .err e → isBannedImageError e = false) ∧
  (∀ p v e, (TesseractAPI.get_loaded_languages p v).1 = .err e → isBannedImageError e = false) ∧
  (∀ p v e, (TesseractAPI.get_available_languages p v).1 = .err e → isBannedImageError e = false) ∧
  (∀ v e, (TesseractAPI.string_vec_to_rust v).1 = .err e → isBannedImageError e = false) ∧
  (∀ p e, TesseractAPI.clear_adaptive_classifier p = .err e → isBannedImageError e = false) ∧
  (∀ p e, TesseractAPI.clear p = .err e → isBannedImageError e = false) ∧
  (∀ p e, TesseractAPI.endEngine p = .err e → isBannedImageError e = false) ∧
  (∀ p v e, TesseractAPI.is_valid_word p v = .err e → isBannedImageError e = false) ∧
  (∀ p d c e, TesseractAPI.get_text_direction p d c = .err e → isBannedImageError e = false) ∧
  (∀ p s e, TesseractAPI.init_1 p s = .err e → isBannedImageError e = false) ∧
  (∀ p s e, TesseractAPI.init_2 p s = .err e → isBannedImageError e = false) ∧
  (∀ p s e, TesseractAPI.init_4 p s = .err e → isBannedImageError e = false) ∧
  (∀ p s e, TesseractAPI.init_5 p s = .err e → isBannedImageError e = false) ∧
  (∀ p d w h bpp bpl e, TesseractAPI.set_image p d w h bpp bpl = .err e → isBannedImageError e = false) ∧
  (∀ p e, TesseractAPI.set_image_2 p = .err e → isBannedImageError e = false) ∧
  (∀ p e, TesseractAPI.set_source_resolution p = .err e → isBannedImageError e = false) ∧
  (∀ p e, TesseractAPI.set_rectangle p = .err e → isBannedImageError e = false) ∧
  (∀ p t e, (TesseractAPI.get_utf8_text p t).1 = .err e → isBannedImageError e = false) ∧
  (∀ p q e, TesseractAPI.get_iterator p q = .err e → isBannedImageError e = false) ∧
  (∀ p q e, TesseractAPI.get_mutable_iterator p q = .err e → isBannedImageError e = false) ∧
  (∀ p q e, TesseractAPI.analyse_layout p q = .err e → isBannedImageError e = false) ∧
  (∀ t e, TesseractAPI.get_unichar t = .err e → isBannedImageError e = false) ∧
  (∀ p q e, TesseractAPI.analyze_layout p q = .err e → isBannedImageError e = false) ∧
  (∀ p s q r e, (TesseractAPI.get_iterators p s q r).1 = .err e → isBannedImageError e = false) ∧
  (∀ p h e, (TesseractAPI.drop p h).1 = .err e → isBannedImageError e = false) ∧
  (∀ p e, PageIterator.begin p = .err e → isBannedImageError e = false) ∧
  (∀ p l s e, PageIterator.next p l s = .err e → isBannedImageError e = false) ∧
  (∀ p l s e, PageIterator.is_at_beginning_of p l s = .err e → isBannedImageError e = false) ∧
  (∀ p l g s e, PageIterator.is_at_final_element p l g s = .err e → isBannedImageError e = false) ∧
  (∀ p l s a b c d e, PageIterator.bounding_box p l s a b c d = .err e → isBannedImageError e = false) ∧
  (∀ p v e, PageIterator.block_type p v = .err e → isBannedImageError e = false) ∧
  (∀ p l s a b c d e, PageIterator.baseline p l s a b c d = .err e → isBannedImageError e = false) ∧
  (∀ p s o w t g e, PageIterator.orientation p s o w t g = .err e → isBannedImageError e = false) ∧
  (∀ p s j li cr f e, PageIterator.paragraph_info p s j li cr f = .err e → isBannedImageError e = false) ∧
  (∀ p h e, (PageIterator.drop p h).1 = .err e → isBannedImageError e = false) ∧
  (∀ p l t e, (ResultIterator.get_utf8_text p l t).1 = .err e → isBannedImageError e = false) ∧
  (∀ p l v e, ResultIterator.confidence p l v = .err e → isBannedImageError e = false) ∧
  (∀ p v e, ResultIterator.word_recognition_language p v = .err e → isBannedImageError e = false) ∧
  (∀ p a b c d f g h i j e, ResultIterator.word_font_attributes p a b c d f g h i j = .err e → isBannedImageError e = false) ∧
  (∀ p v e, ResultIterator.word_is_from_dictionary p v = .err e → isBannedImageError e = false) ∧
  (∀ p v e, ResultIterator.word_is_numeric p v = .err e → isBannedImageError e = false) ∧
  (∀ p v e, ResultIterator.symbol_is_superscript p v = .err e → isBannedImageError e = false) ∧
  (∀ p v e, ResultIterator.symbol_is_subscript p v = .err e → isBannedImageError e = false) ∧
  (∀ p v e, ResultIterator.symbol_is_dropcap p v = .err e → isBannedImageError e = false) ∧
  (∀ p l s e, ResultIterator.next p l s = .err e → isBannedImageError e = false) ∧
  (∀ p l s a b c d e, ResultIterator.get_bounding_box p l s a b c d = .err e → isBannedImageError e = false) ∧
  (∀ p t s a b c d cf e, ResultIterator.get_word_with_bounds p t s a b c d cf = .err e → isBannedImageError e = false) ∧
  (∀ p s e, ResultIterator.next_word p s = .err e → isBannedImageError e = false) ∧
  (∀ p t s a b c d cf e, ResultIterator.get_current_word p t s a b c d cf = .err e → isBannedImageError e = false) ∧
  (∀ p h e, (ResultIterator.drop p h).1 = .err e → isBannedImageError e = false) ∧
  (∀ p l t e, (MutableIterator.get_utf8_text p l t).1 = .err e → isBannedImageError e = false) ∧
  (∀ p l v e, MutableIterator.confidence p l v = .err e → isBannedImageError e = false) ∧
  (∀ p v e, MutableIterator.word_recognition_language p v = .err e → isBannedImageError e = false) ∧
  (∀ p a b c d f g h i j e, MutableIterator.word_font_attributes p a b c d f g h i j = .err e → isBannedImageError e = false) ∧
  (∀ p v e, MutableIterator.word_is_from_dictionary p v = .err e → isBannedImageError e = false) ∧
  (∀ p v e, MutableIterator.word_is_numeric p v = .err e → isBannedImageError e = false) ∧
  (∀ p v e, MutableIterator.symbol_is_superscript p v = .err e → isBannedImageError e = false) ∧
  (∀ p v e, MutableIterator.symbol_is_subscript p v = .err e → isBannedImageError e = false) ∧
  (∀ p v e, MutableIterator.symbol_is_dropcap p v = .err e → isBannedImageError e = false) ∧
  (∀ p l s e, MutableIterator.next p l s = .err e → isBannedImageError e = false) ∧
  (∀ p l s e, MutableIterator.set_value p l s = .err e → isBannedImageError e = false) ∧
  (∀ p s e, MutableIterator.delete p s = .err e → isBannedImageError e = false) ∧
  (∀ p h e, (MutableIterator.drop p h).1 = .err e → isBannedImageError e = false) ∧
  (∀ p s e, ChoiceIterator.next p s = .err e → isBannedImageError e = false) ∧
  (∀ p t e, (ChoiceIterator.get_utf8_text p t).1 = .err e → isBannedImageError e = false) ∧
  (∀ p v e, ChoiceIterator.confidence p v = .err e → isBannedImageError e = false) ∧
  (∀ p h e, (ChoiceIterator.drop p h).1 = .err e → isBannedImageError e = false) ∧
  (∀ p d e, TessMonitor.set_deadline p d = .err e → isBannedImageError e = false) ∧
  (∀ p v e, TessMonitor.get_progress p v = .err e → isBannedImageError e = false) ∧
  (∀ p h e, (TessMonitor.drop p h).1 = .err e → isBannedImageError e = false) ∧
  (∀ q e, TessResultRenderer.new_text_renderer q = .err e → isBannedImageError e = false) ∧
  (∀ q e, TessResultRenderer.new_hocr_renderer q = .err e → isBannedImageError e = false) ∧
  (∀ q e, TessResultRenderer.new_pdf_renderer q = .err e → isBannedImageError e = false) ∧
  (∀ p s e, TessResultRenderer.begin_document p s = .err e → isBannedImageError e = false) ∧
  (∀ p q s e, TessResultRenderer.add_image p q s = .err e → isBannedImageError e = false) ∧
  (∀ p s e, TessResultRenderer.end_document p s = .err e → isBannedImageError e = false) ∧
  (∀ p t e, TessResultRenderer.get_extension p t = .err e → isBannedImageError e = false) ∧
  (∀ p t e, TessResultRenderer.get_title p t = .err e → isBannedImageError e = false) ∧
  (∀ p v e, TessResultRenderer.get_image_num p v = .err e → isBannedImageError e = false) ∧
  (∀ p h e, (TessResultRenderer.drop p h).1 = .err e → isBannedImageError e = false)

/-! Supporting lemmas. -/

/-- A buffer containing the `-1` sentinel splits as the collected prefix,
the first sentinel and a tail, and the extraction loop returns exactly
that prefix. -/
theorem intSentinelLoop_of_mem :
    ∀ (buf : List Int), (-1 : Int) ∈ buf →
      ∃ r rest, intSentinelLoop buf = some r ∧ buf = r ++ -1 :: rest ∧
        (-1 : Int) ∉ r := by
  intro buf
  induction buf with
  | nil => intro h; simp at h
  | cons x xs ih =>
    intro h
    by_cases hx : x = -1
    · subst hx
      exact ⟨[], xs, by simp [intSentinelLoop], by simp, by simp⟩
    · have hxs : (-1 : Int) ∈ xs := by
        rcases List.mem_cons.mp h with h1 | h2
        · exact absurd h1.symm hx
        · exact h2
      obtain ⟨r, rest, h1, h2, h3⟩ := ih hxs
      refine ⟨x :: r, rest, ?_, ?_, ?_⟩
      · simp [intSentinelLoop, hx, h1]
      · simp [h2]
      · intro hc
        rcases List.mem_cons.mp hc with hc1 | hc2
        · exact hx hc1.symm
        · exact h3 hc2

/-- The string-array loop on a buffer of decodable entries followed by the
terminating null entry returns exactly the decoded entries, in order. -/
theorem stringVecLoop_decoded :
    ∀ (ss : List String) (rest : List (Option (Option String))),
      TesseractAPI.stringVecLoop (ss.map (fun s => some (some s)) ++ none :: rest) =
        some (some ss) := by
  intro ss rest
  induction ss with
  | nil => simp [TesseractAPI.stringVecLoop]
  | cons s ss ih => simp [TesseractAPI.stringVecLoop, ih]

/-- The string-array loop hits a non-UTF-8 entry before any terminating
null entry: it reports the decode failure. -/
theorem stringVecLoop_badEntry :
    ∀ (ss : List String) (tail : List (Option (Option String))),
      TesseractAPI.stringVecLoop (ss.map (fun s => some (some s)) ++ some none :: tail) =
        some none := by
  intro ss tail
  induction ss with
  | nil => simp [TesseractAPI.stringVecLoop]
  | cons s ss ih => simp [TesseractAPI.stringVecLoop, ih]

/-! Claim theorems. -/

/-- C1 (counterexample): with its mutex poisoned, `PageIterator::next`
(src/page_iterator.rs 48-51) panics via `lock().unwrap()` instead of
returning `MutexLockError`; `TessMonitor::set_deadline` likewise; and
`MutableIterator::next` (src/mutable_iterator.rs 181-184) returns the
distinct variant `MutexError`.  This refutes the claim that every public
wrapper operation surfaces a poisoned mutex as `MutexLockError`. -/
theorem claim_C1_counterexample :
    PageIterator.next true 3 1 = .panicked ∧
    PageIterator.next true 3 1 ≠ .err .MutexLockError ∧
    TessMonitor.set_deadline true 5 = .panicked ∧
    MutableIterator.next true 3 1 = .err .MutexError ∧
    MutableIterator.next true 3 1 ≠ .err .MutexLockError := by
  refine ⟨rfl, by decide, rfl, rfl, by decide⟩

/-- C1 (amended): on a poisoned mutex, every handle-using operation of the
engine facade, the result iterator and the choice iterator returns
`MutexLockError`; every mutable-iterator operation returns `MutexError`;
and every operation of the page iterator, the monitor and the renderer
panics (including `add_image` when either of its two locks is poisoned). -/
theorem claim_C1_amended :
    EnginePoisonBehaviour ∧ ResultChoicePoisonBehaviour ∧
    MutablePoisonBehaviour ∧ PanicOpsOnPoison := by
  unfold EnginePoisonBehaviour ResultChoicePoisonBehaviour
    MutablePoisonBehaviour PanicOpsOnPoison
  repeat' apply And.intro
  all_goals intros
  all_goals rfl

/-- C2 (counterexample): at drop time with a poisoned mutex,
`Drop for PageIterator` (src/page_iterator.rs 233-238), `Drop for
TessMonitor` (src/monitor.rs 45-50) and `Drop for TessResultRenderer`
(src/result_renderer.rs 167-172) panic via `lock().unwrap()` instead of
skipping the native delete, refuting the claim that every wrapper skips
the delete (without panicking) when poisoned at teardown. -/
theorem claim_C2_counterexample :
    PageIterator.drop true (some 7) = (.panicked, []) ∧
    PageIterator.drop true (some 7) ≠ (.ok (), []) ∧
    TessMonitor.drop true (some 7) = (.panicked, []) ∧
    TessResultRenderer.drop true (some 7) = (.panicked, []) := by
  refine ⟨rfl, by decide, rfl, rfl⟩

/-- C2 (amended): with a healthy mutex, dropping any wrapper issues its
native delete entry point exactly once.  With a poisoned mutex,
`TesseractAPI`, `ResultIterator`, `MutableIterator` and `ChoiceIterator`
skip the delete silently (leaking), while `PageIterator`, `TessMonitor`
and `TessResultRenderer` panic (the delete is equally not reached, so no
double free or use after free in either case). -/
theorem claim_C2_amended : DropBehaviour := by
  unfold DropBehaviour
  repeat' apply And.intro
  all_goals intros
  all_goals rfl

/-- C3 (code bug): at the failing input — healthy lock, native
word-confidence buffer `[5, -1]` (or a null buffer) —
`get_word_confidences` (src/api.rs 77-91) issues no `TessDeleteIntArray`
at all and reads through the pointer without a null check (undefined
behaviour on a null buffer), contradicting the spec's required null
validation and exactly-once deallocation, which its sibling
`all_word_confidences` (src/api.rs 513-530) performs; `get_utf8_text`
(src/api.rs 1231-1244) additionally skips `TessDeleteText` when the
returned text is not valid UTF-8. -/
theorem claim_C3_code_bug :
    TesseractAPI.get_word_confidences false (some [5, -1]) = (.ok [5], []) ∧
    (TesseractAPI.get_word_confidences false (some [5, -1])).2.count .deleteIntArray = 0 ∧
    TesseractAPI.get_word_confidences false none = (.ub, []) ∧
    TesseractAPI.all_word_confidences false (some [5, -1]) =
      (.ok [5], [.deleteIntArray]) ∧
    TesseractAPI.get_utf8_text false (some none) = (.err .Utf8Error, []) := by
  refine ⟨by decide, by decide, by decide, by decide, by decide⟩

/-- C4: for every sentinel-terminated confidence buffer, both
`all_word_confidences` and `get_word_confidences` return exactly the
entries strictly before the first `-1`, in their original order and
without the sentinel; the buffer `[-1]` yields the empty vector, not an
error. -/
theorem claim_C4 :
    (∀ (buf : List Int), (-1 : Int) ∈ buf →
      ∃ r rest,
        TesseractAPI.all_word_confidences false (some buf) =
          (.ok r, [.deleteIntArray]) ∧
        TesseractAPI.get_word_confidences false (some buf) = (.ok r, []) ∧
        buf = r ++ -1 :: rest ∧ (-1 : Int) ∉ r) ∧
    TesseractAPI.all_word_confidences false (some [-1]) =
      (.ok [], [.deleteIntArray]) ∧
    TesseractAPI.get_word_confidences false (some [-1]) = (.ok [], []) := by
  refine ⟨?_, by decide, by decide⟩
  intro buf h
  obtain ⟨r, rest, h1, h2, h3⟩ := intSentinelLoop_of_mem buf h
  refine ⟨r, rest, ?_, ?_, h2, h3⟩
  · simp [TesseractAPI.all_word_confidences, h1]
  · simp [TesseractAPI.get_word_confidences, h1]

/-- C4 witness: the claim theorem applied to the concrete buffer
`[3, 5, -1, 7]`. -/
theorem claim_C4_witness :
    ∃ r rest,
      TesseractAPI.all_word_confidences false (some [3, 5, -1, 7]) =
        (.ok r, [.deleteIntArray]) ∧
      TesseractAPI.get_word_confidences false (some [3, 5, -1, 7]) = (.ok r, []) ∧
      [3, 5, -1, 7] = r ++ -1 :: rest ∧ (-1 : Int) ∉ r :=
  claim_C4.1 [3, 5, -1, 7] (by decide)

/-- C5: `string_vec_to_rust` (src/api.rs 889-906) maps a null array
pointer to `NullPointerError`; returns the decoded entries strictly before
the first null entry, in order, with exactly one `TessDeleteTextArray`; an
array whose first entry is null yields the empty vector; a non-UTF-8 entry
yields the encoding error; and `get_loaded_languages` /
`get_available_languages` are exactly this converter applied to the native
array. -/
theorem claim_C5 :
    (TesseractAPI.string_vec_to_rust none = (.err .NullPointerError, [])) ∧
    (∀ (ss : List String) rest,
      TesseractAPI.string_vec_to_rust
        (some (ss.map (fun s => some (some s)) ++ none :: rest)) =
        (.ok ss, [.deleteTextArray])) ∧
    (∀ rest, TesseractAPI.string_vec_to_rust (some (none :: rest)) =
        (.ok [], [.deleteTextArray])) ∧
    (∀ (ss : List String) tail,
      TesseractAPI.string_vec_to_rust
        (some (ss.map (fun s => some (some s)) ++ some none :: tail)) =
        (.err .Utf8Error, [])) ∧
    (∀ v, TesseractAPI.get_loaded_languages false v =
      TesseractAPI.string_vec_to_rust v) ∧
    (∀ v, TesseractAPI.get_available_languages false v =
      TesseractAPI.string_vec_to_rust v) := by
  refine ⟨rfl, ?_, ?_, ?_, fun v => rfl, fun v => rfl⟩
  · intro ss rest
    simp [TesseractAPI.string_vec_to_rust, stringVecLoop_decoded]
  · intro rest
    simp [TesseractAPI.string_vec_to_rust, TesseractAPI.stringVecLoop]
  · intro ss tail
    simp [TesseractAPI.string_vec_to_rust, stringVecLoop_badEntry]

/-- C6 (counterexample): `TesseractAPI::new` (src/api.rs 28-33) and
`TessMonitor::new` (src/monitor.rs 17-22) have no failure channel at all:
handed a null pointer by the native create call, each still produces a
wrapper holding the null handle, refuting the claim that every wrapper
constructor fails with `NullPointerError` on a null native handle. -/
theorem claim_C6_counterexample :
    TesseractAPI.new none = { handle := none } ∧
    TessMonitor.new none = { handle := none } := ⟨rfl, rfl⟩

/-- C6 (amended): the three renderer constructors and the facade's
iterator getters (`get_page_iterator`, `get_iterator`,
`get_mutable_iterator`, `analyse_layout`, `analyze_layout`,
`get_iterators`) return `NullPointerError` on a null native handle and
wrap only non-null ones; `TesseractAPI::new` and `TessMonitor::new`
perform no check and always produce a wrapper holding whatever pointer
the create call returned. -/
theorem claim_C6_amended : ConstructorNullBehaviour := by
  unfold ConstructorNullBehaviour
  repeat' apply And.intro
  all_goals intros
  all_goals rfl

/-- C7: `set_image` performs no host-side validation — for every buffer
and every width/height/bytes-per-pixel/bytes-per-line combination it
returns `Ok(())` when the lock is healthy and `MutexLockError` when
poisoned — and no operation of any wrapper ever produces `SetImageError`,
`InvalidDimensions`, `InvalidBytesPerPixel`, `InvalidBytesPerLine` or
`InvalidImageData`. -/
theorem claim_C7 :
    (∀ d w h bpp bpl, TesseractAPI.set_image false d w h bpp bpl = .ok ()) ∧
    (∀ d w h bpp bpl,
      TesseractAPI.set_image true d w h bpp bpl = .err .MutexLockError) ∧
    NoBannedImageErrors := by
  refine ⟨fun _ _ _ _ _ => rfl, fun _ _ _ _ _ => rfl, ?_⟩
  unfold NoBannedImageErrors
  repeat' apply And.intro
  all_goals intros
  all_goals rename_i he
  all_goals simp only [TesseractAPI.init, TesseractAPI.get_word_confidences,
    TesseractAPI.mean_text_conf, TesseractAPI.set_variable,
    TesseractAPI.get_string_variable, TesseractAPI.get_int_variable,
    TesseractAPI.get_bool_variable, TesseractAPI.get_double_variable,
    TesseractAPI.set_page_seg_mode, TesseractAPI.get_page_seg_mode,
    TesseractAPI.recognize, TesseractAPI.get_hocr_text,
    TesseractAPI.get_alto_text, TesseractAPI.get_tsv_text,
    TesseractAPI.set_input_name, TesseractAPI.get_input_name,
    TesseractAPI.get_datapath, TesseractAPI.get_source_y_resolution,
    TesseractAPI.get_thresholded_image, TesseractAPI.get_box_text,
    TesseractAPI.get_lstm_box_text, TesseractAPI.get_word_str_box_text,
    TesseractAPI.get_unlv_text, TesseractAPI.all_word_confidences,
    TesseractAPI.adapt_to_word_str, TesseractAPI.detect_os,
    TesseractAPI.set_min_orientation_margin, TesseractAPI.get_page_iterator,
    TesseractAPI.set_input_image, TesseractAPI.get_input_image,
    TesseractAPI.set_output_name, TesseractAPI.set_debug_variable,
    TesseractAPI.print_variables_to_file, TesseractAPI.init_for_analyse_page,
    TesseractAPI.read_config_file, TesseractAPI.read_debug_config_file,
    TesseractAPI.get_thresholded_image_scale_factor, TesseractAPI.process_pages,
    TesseractAPI.get_init_languages_as_string, TesseractAPI.get_loaded_languages,
    TesseractAPI.get_available_languages, TesseractAPI.string_vec_to_rust,
    TesseractAPI.clear_adaptive_classifier, TesseractAPI.clear,
    TesseractAPI.endEngine, TesseractAPI.is_valid_word,
    TesseractAPI.get_text_direction, TesseractAPI.init_1, TesseractAPI.init_2,
    TesseractAPI.init_4, TesseractAPI.init_5, TesseractAPI.set_image,
    TesseractAPI.set_image_2, TesseractAPI.set_source_resolution,
    TesseractAPI.set_rectangle, TesseractAPI.get_utf8_text,
    TesseractAPI.get_iterator, TesseractAPI.get_mutable_iterator,
    TesseractAPI.analyse_layout, TesseractAPI.get_unichar,
    TesseractAPI.analyze_layout, TesseractAPI.get_iterators,
    TesseractAPI.drop, PageIterator.begin, PageIterator.next,
    PageIterator.is_at_beginning_of, PageIterator.is_at_final_element,
    PageIterator.bounding_box, PageIterator.block_type, PageIterator.baseline,
    PageIterator.orientation, PageIterator.paragraph_info, PageIterator.drop,
    ResultIterator.get_utf8_text, ResultIterator.confidence,
    ResultIterator.word_recognition_language,
    ResultIterator.word_font_attributes,
    ResultIterator.word_is_from_dictionary, ResultIterator.word_is_numeric,
    ResultIterator.symbol_is_superscript, ResultIterator.symbol_is_subscript,
    ResultIterator.symbol_is_dropcap, ResultIterator.next,
    ResultIterator.get_bounding_box, ResultIterator.get_word_with_bounds,
    ResultIterator.next_word, ResultIterator.get_current_word,
    ResultIterator.drop, MutableIterator.get_utf8_text,
    MutableIterator.confidence, MutableIterator.word_recognition_language,
    MutableIterator.word_font_attributes,
    MutableIterator.word_is_from_dictionary, MutableIterator.word_is_numeric,
    MutableIterator.symbol_is_superscript, MutableIterator.symbol_is_subscript,
    MutableIterator.symbol_is_dropcap, MutableIterator.next,
    MutableIterator.set_value, MutableIterator.delete, MutableIterator.drop,
    ChoiceIterator.next, ChoiceIterator.get_utf8_text,
    ChoiceIterator.confidence, ChoiceIterator.drop, TessMonitor.set_deadline,
    TessMonitor.get_progress, TessMonitor.drop,
    TessResultRenderer.new_text_renderer, TessResultRenderer.new_hocr_renderer,
    TessResultRenderer.new_pdf_renderer, TessResultRenderer.begin_document,
    TessResultRenderer.add_image, TessResultRenderer.end_document,
    TessResultRenderer.get_extension, TessResultRenderer.get_title,
    TessResultRenderer.get_image_num, TessResultRenderer.drop] at he
  all_goals (repeat' split at he)
  all_goals (try cases he)
  all_goals (try rfl)
  all_goals (rename_i heq)
  all_goals (repeat' split at heq)
  all_goals (try cases heq)
  all_goals rfl

/-- C7 witness: the claim theorem at concrete inputs — the spec's literal
3×3 grayscale buffer is accepted unvalidated, and the one error `init` can
return is not among the banned image-validation variants. -/
theorem claim_C7_witness :
    TesseractAPI.set_image false [255, 0, 255, 0, 0, 255, 0, 0, 255] 3 3 1 3 =
      .ok () ∧
    isBannedImageError .InitError = false :=
  ⟨claim_C7.1 [255, 0, 255, 0, 0, 255, 0, 0, 255] 3 3 1 3,
   claim_C7.2.2.1 false 1 .InitError (by decide)⟩

/-- C8: `add_image` (src/result_renderer.rs 108-112) acquires the engine
facade's lock first and the renderer's lock second, holds both across the
native add-image call, and — this being the one multi-lock path in the
codebase, so the engine-then-renderer order is globally fixed — two
threads rendering concurrently from the same engine with different
renderers cannot reach a circular wait. -/
theorem claim_C8 :
    (∀ e r, addImageEvents e r =
      [.acquire (.engine e), .acquire (.renderer r), .nativeAddImage,
       .release (.renderer r), .release (.engine e)]) ∧
    (∀ e r1 r2, r1 ≠ r2 →
      ¬ canDeadlock (addImageLockOrder e r1) (addImageLockOrder e r2)) := by
  refine ⟨fun e r => rfl, ?_⟩
  intro e r1 r2 hne hdl
  obtain ⟨a, b, hab, h1, h2⟩ := hdl
  obtain ⟨ha1, hb1, -⟩ := h1
  obtain ⟨hb2, ha2, -⟩ := h2
  simp only [addImageLockOrder, List.mem_cons, List.not_mem_nil, or_false]
    at ha1 hb1 ha2 hb2
  have ha : a = LockId.engine e := by
    rcases ha1 with h | h
    · exact h
    · subst h
      rcases ha2 with h' | h'
      · exact h'
      · exfalso; cases h'; exact hne rfl
  have hb : b = LockId.engine e := by
    rcases hb1 with h | h
    · exact h
    · subst h
      rcases hb2 with h' | h'
      · exact h'
      · exfalso; cases h'; exact hne rfl
  exact hab (ha.trans hb.symm)

/-- C8 witness: the claim theorem at engine 0 and distinct renderers 1
and 2. -/
theorem claim_C8_witness :
    ¬ canDeadlock (addImageLockOrder 0 1) (addImageLockOrder 0 2) :=
  claim_C8.2 0 1 2 (by decide)

/-- C9: with the native engine a deterministic oracle over its state and
the word-confidence query a read-only native call, `get_word_confidences`
run twice after one `set_image` + `recognize` with nothing in between
returns the same sequence both times: the wrapper keeps no host-side
cache and issues no state-changing native call between the two reads. -/
theorem claim_C9 {σ : Type} (m : NativeEngineModel σ) (s0 : σ) :
    (confidenceScenario m s0).1 = (confidenceScenario m s0).2 := rfl

/-- C10: `get_iterators` (src/api.rs 1333-1360) first runs `recognize` and
propagates its failure with no iterator created (no analyse-layout or
get-iterator native call); with recognition succeeded, if either native
iterator pointer is null it deletes whichever of the two is non-null and
returns `NullPointerError`, so no native cursor stays allocated on
failure; only with both pointers non-null does it return the wrapped
pair. -/
theorem claim_C10 :
    (∀ s q r, s ≠ 0 →
      TesseractAPI.get_iterators false s q r = (.err .OcrError, [])) ∧
    (∀ p r, TesseractAPI.get_iterators false 0 (some p) (some r) =
      (.ok ({ handle := some p }, { handle := some r }),
       [.recognizeCall, .analyseLayoutCall, .getIteratorCall])) ∧
    (∀ p, TesseractAPI.get_iterators false 0 (some p) none =
      (.err .NullPointerError,
       [.recognizeCall, .analyseLayoutCall, .getIteratorCall,
        .pageIteratorDelete (some p)])) ∧
    (∀ r, TesseractAPI.get_iterators false 0 none (some r) =
      (.err .NullPointerError,
       [.recognizeCall, .analyseLayoutCall, .getIteratorCall,
        .resultIteratorDelete (some r)])) ∧
    (TesseractAPI.get_iterators false 0 none none =
      (.err .NullPointerError,
       [.recognizeCall, .analyseLayoutCall, .getIteratorCall])) := by
  refine ⟨?_, fun p r => rfl, fun p => rfl, fun r => rfl, rfl⟩
  intro s q r hs
  simp [TesseractAPI.get_iterators, TesseractAPI.recognize, hs]

/-- C10 witness: the claim theorem at a failing recognize status 1 and
arbitrary concrete iterator pointers. -/
theorem claim_C10_witness :
    TesseractAPI.get_iterators false 1 (some 4) (some 5) = (.err .OcrError, []) :=
  claim_C10.1 1 (some 4) (some 5) (by decide)

end TessRs
